import Mathlib

/-!
Shallow embedding of the CSC110 climate-model core (calculations.py and the
merge logic of load_data.py), with theorems checking the specification's
claims about it.

Modelling conventions:
* Python floats are idealised as real numbers (`ℝ`); `math.log(x, 2)` becomes
  `Real.logb 2 x` and `math.exp` / `math.log` become `Real.exp` / `Real.log`.
* The two dataclasses `YearlyMetrics` and `MonthlyMetrics` share all fields
  except `month`; they are embedded as a single structure `Metrics` whose
  `month` field is `none` exactly for the yearly variant (the code's
  `isinstance(entry, YearlyMetrics)` test becomes a match on `month`).
* In-place mutation of a record list becomes explicit list rebuilding; a
  function that can raise returns the partially mutated list paired with an
  optional `PyErr`, or an `Except PyErr` result when the raised exception
  escapes before anything is returned.
* Python `dict` insertion (later assignment to an existing key overwrites in
  place, keeping the original position) is modelled by `dictInsert` on an
  association list.
-/

namespace Climate

/-- The runtime errors the embedded code can raise, mirroring Python's
`IndexError`, `TypeError` (arithmetic on `None`) and `ZeroDivisionError`. -/
inductive PyErr : Type where
  | indexError : PyErr
  | typeError : PyErr
  | zeroDivisionError : PyErr
deriving DecidableEq

/-- Embedding of the dataclasses `YearlyMetrics` / `MonthlyMetrics` of
load_data.py: one structure, with `month = none` for the yearly variant and
`month = some m` for the monthly variant.  Optional fields start out `none`
exactly as the dataclass defaults start out `None`. -/
structure Metrics : Type where
  year : Int
  month : Option Int := none
  co2 : ℝ
  temp_anomaly : Option ℝ := none
  temp : Option ℝ := none
  calculated_temp : Option ℝ := none
  calculated_temp_anomaly : Option ℝ := none

/-- Module-level constant INITIAL_YEAR of calculations.py. -/
def INITIAL_YEAR : Int := 2020

/-- Module-level constant INITIAL_CO2 of calculations.py. -/
noncomputable def INITIAL_CO2 : ℝ := 414.24

/-- Module-level constant INITIAL_TEMP of calculations.py. -/
noncomputable def INITIAL_TEMP : ℝ := 15.49

/-- calculations.calculate_concentration: the one-step concentration update
`past_concentration + (emissions * 0.45) / 2.3`. -/
noncomputable def calculate_concentration (past_concentration emissions : ℝ) : ℝ :=
  past_concentration + (emissions * 0.45) / 2.3

/-- calculations.calculate_temperature: returns the pair
`(calculated_temp, calculated_temp_anomaly)` with
`calculated_temp = current_temp + sensitivity * log2 (new / current)` and
`calculated_temp_anomaly = calculated_temp - 13.9`. -/
noncomputable def calculate_temperature (current_temp sensitivity new_concentration
    current_concentration : ℝ) : ℝ × ℝ :=
  let calculated_temp :=
    current_temp + sensitivity * Real.logb 2 (new_concentration / current_concentration)
  (calculated_temp, calculated_temp - 13.9)

/-- The loop body of calculations.update_data over the records after the
first.  `past_co2` and `past_temp` are the rolling prior state (the prior
temperature is optional because the dataclass field `temp` may be `None`, in
which case the arithmetic inside `calculate_temperature` raises a
`TypeError`).  Returns the list as mutated so far together with the raised
error, if any: on an error Python leaves the earlier records mutated and the
later ones untouched. -/
noncomputable def updateLoop (sensitivity past_co2 : ℝ) (past_temp : Option ℝ) :
    List Metrics → List Metrics × Option PyErr
  | [] => ([], none)
  | e :: rest =>
    match past_temp with
    | none => (e :: rest, some PyErr.typeError)
    | some pt =>
      let t := calculate_temperature pt sensitivity e.co2 past_co2
      let e' : Metrics :=
        { e with calculated_temp := some t.1, calculated_temp_anomaly := some t.2 }
      let r := updateLoop sensitivity e.co2 e.temp rest
      (e' :: r.1, r.2)

/-- calculations.update_data: seeds the rolling prior state from the first
record's recorded `co2` and `temp` and runs the loop over the remaining
records.  `metrics[0]` on an empty list raises an `IndexError`. -/
noncomputable def update_data (metrics : List Metrics) (sensitivity : ℝ) :
    List Metrics × Option PyErr :=
  match metrics with
  | [] => ([], some PyErr.indexError)
  | first :: rest =>
    let r := updateLoop sensitivity first.co2 first.temp rest
    (first :: r.1, r.2)

/-- A record with its `calculated_temp` / `calculated_temp_anomaly` fields
cleared; used to state that `update_data` writes nothing but those fields. -/
def eraseCalculated (e : Metrics) : Metrics :=
  { e with calculated_temp := none, calculated_temp_anomaly := none }

/-- The loop of calculations.extrapolate_data: at each of the remaining `k`
steps it applies `calculate_concentration` to the rolling prior concentration,
then `calculate_temperature` chained on the *previous iteration's modeled*
temperature and concentration, and appends a `YearlyMetrics` for the given
year.  As the source's docstring says, the computed values are stored in the
`temp` / `temp_anomaly` attributes (not the calculated ones). -/
noncomputable def extrapolateLoop (sensitivity emissions past_co2 past_temp : ℝ)
    (year : Int) : Nat → List Metrics
  | 0 => []
  | k + 1 =>
    let c := calculate_concentration past_co2 emissions
    let t := calculate_temperature past_temp sensitivity c past_co2
    { year := year, co2 := c, temp_anomaly := some t.2, temp := some t.1 } ::
      extrapolateLoop sensitivity emissions c t.1 (year + 1) k

/-- calculations.extrapolate_data: runs the extrapolation loop from the
module baselines `INITIAL_CO2` / `INITIAL_TEMP`, with years `2020 + i` for
`i = 1, ..., num_entries`. -/
noncomputable def extrapolate_data (num_entries : Nat) (sensitivity emissions : ℝ) :
    List Metrics :=
  extrapolateLoop sensitivity emissions INITIAL_CO2 INITIAL_TEMP 2021 num_entries

/-- The dict key built by calculations.calculate_error:
`str(entry.year)` for a `YearlyMetrics`, the f-string `year, month` for a
`MonthlyMetrics` (the `isinstance` test becomes a match on `month`). -/
def periodLabel (e : Metrics) : String :=
  match e.month with
  | none => toString e.year
  | some m => toString e.year ++ ", " ++ toString m

/-- Python dict assignment `d[k] = v` on an insertion-ordered dict: an
existing key is overwritten in place (keeping its original position), a new
key is appended at the end. -/
def dictInsert (d : List (String × ℝ)) (k : String) (v : ℝ) : List (String × ℝ) :=
  if d.any fun p => p.1 == k then d.map fun p => if p.1 == k then (k, v) else p
  else d ++ [(k, v)]

/-- The loop of calculations.calculate_error over `metrics[1:]`.  Python
raises a `TypeError` when `calculated_temp_anomaly` or `temp_anomaly` is
`None`; `math.exp` / `math.log` are idealised as `Real.exp` / `Real.log`
(the source literally computes `abs(log(exp(calculated - known))) * 100`). -/
noncomputable def errorLoop :
    List Metrics → List (String × ℝ) → Except PyErr (List (String × ℝ))
  | [], acc => Except.ok acc
  | e :: rest, acc =>
    match e.calculated_temp_anomaly, e.temp_anomaly with
    | some c, some k =>
      errorLoop rest
        (dictInsert acc (periodLabel e) (|Real.log (Real.exp (c - k))| * 100))
    | _, _ => Except.error PyErr.typeError

/-- calculations.calculate_error: iterates over all records after the first,
building the insertion-ordered percent-error dict. -/
noncomputable def calculate_error (metrics : List Metrics) :
    Except PyErr (List (String × ℝ)) :=
  errorLoop metrics.tail []

/-- Python `round(x, 2)`: rounding to two decimal places, idealised over the
reals (the binary-float and tie-breaking details of the interpreter are not
modelled; no claim depends on them). -/
noncomputable def round2 (x : ℝ) : ℝ := (round (x * 100) : ℤ) / 100

/-- calculations.calculate_average_percent_error: the mean of the dict's
values, rounded to two decimals.  `sum([]) / len([])` is Python's `0 / 0`,
a `ZeroDivisionError`.  The final f-string that appends a percent sign is
presentation-layer formatting and is not modelled; the result is the number
being formatted. -/
noncomputable def calculate_average_percent_error (metrics : List Metrics) :
    Except PyErr ℝ :=
  match calculate_error metrics with
  | Except.error err => Except.error err
  | Except.ok d =>
    if d.length = 0 then Except.error PyErr.zeroDivisionError
    else Except.ok (round2 ((d.map Prod.snd).sum / d.length))

/-- The period filter `1959 <= year <= 2020` applied by both loaders to both
sources. -/
def yearAccepted (y : Int) : Bool := decide (1959 ≤ y ∧ y ≤ 2020)

/-- Phase 1 of load_data.load_yearly_data: one `YearlyMetrics` per accepted
row of source A, carrying `(year, co2)`; the other fields keep their `None`
defaults.  Rows arrive already parsed into primitives (file reading and CSV
mechanics are the excluded ingestion collaborator). -/
def buildYearly (rows1 : List (Int × ℝ)) : List Metrics :=
  rows1.filterMap fun r =>
    if yearAccepted r.1 then some { year := r.1, co2 := r.2 } else none

/-- Phase 2 of load_data.load_yearly_data: walk source B's rows, and for the
i-th accepted one mutate the record at index i (`temp_anomaly`, and
`temp = round(13.9 + temp_anomaly, 2)`).  Indexing past the end of the list
raises an `IndexError`. -/
noncomputable def fillYearly :
    List Metrics → Nat → List (Int × ℝ) → Except PyErr (List Metrics)
  | recs, _, [] => Except.ok recs
  | recs, idx, row :: rest =>
    if yearAccepted row.1 then
      match recs.get? idx with
      | some r =>
        fillYearly
          (recs.set idx
            { r with
              temp_anomaly := some row.2,
              temp := some (round2 (13.9 + row.2)) })
          (idx + 1) rest
      | none => Except.error PyErr.indexError
    else fillYearly recs idx rest

/-- load_data.load_yearly_data on already-parsed rows: source A rows are
`(year, co2)`, source B rows are `(year, temp_anomaly)`. -/
noncomputable def load_yearly_data (rows1 rows2 : List (Int × ℝ)) :
    Except PyErr (List Metrics) :=
  fillYearly (buildYearly rows1) 0 rows2

/-- Phase 1 of load_data.load_monthly_data: rows of source A carry
`(year, month, co2)` (columns 0, 1 and 3 of the csv). -/
def buildMonthly (rows1 : List (Int × Int × ℝ)) : List Metrics :=
  rows1.filterMap fun r =>
    if yearAccepted r.1 then some { year := r.1, month := some r.2.1, co2 := r.2.2 }
    else none

/-- Phase 2 of load_data.load_monthly_data: source B rows carry
`(year, month, temp_anomaly)`, year and month already split out of the packed
`YYYYMM` field; the month is also written onto the record. -/
noncomputable def fillMonthly :
    List Metrics → Nat → List (Int × Int × ℝ) → Except PyErr (List Metrics)
  | recs, _, [] => Except.ok recs
  | recs, idx, row :: rest =>
    if yearAccepted row.1 then
      match recs.get? idx with
      | some r =>
        fillMonthly
          (recs.set idx
            { r with
              month := some row.2.1,
              temp_anomaly := some row.2.2,
              temp := some (round2 (13.9 + row.2.2)) })
          (idx + 1) rest
      | none => Except.error PyErr.indexError
    else fillMonthly recs idx rest

/-- load_data.load_monthly_data on already-parsed rows. -/
noncomputable def load_monthly_data (rows1 rows2 : List (Int × Int × ℝ)) :
    Except PyErr (List Metrics) :=
  fillMonthly (buildMonthly rows1) 0 rows2

/-- Count of source rows accepted by the period filter (yearly shape). -/
def acceptedCountY (rows : List (Int × ℝ)) : Nat :=
  (rows.filter fun r => yearAccepted r.1).length

/-- Count of source rows accepted by the period filter (monthly shape). -/
def acceptedCountM (rows : List (Int × Int × ℝ)) : Nat :=
  (rows.filter fun r => yearAccepted r.1).length

/-- A concrete assembled yearly record, used by witnesses. -/
noncomputable def sampleA : Metrics :=
  { year := 2020, co2 := 1, temp_anomaly := some 0, temp := some 13.9 }

/-- A second concrete assembled yearly record, used by witnesses. -/
noncomputable def sampleB : Metrics :=
  { year := 2021, co2 := 2, temp_anomaly := some 0.1, temp := some 14 }

/-- A concrete record with both anomaly fields populated, as after a replay
pass; used by witnesses. -/
noncomputable def sampleC : Metrics :=
  { year := 2021, co2 := 2, temp_anomaly := some 0.1, temp := some 14,
    calculated_temp := some 14.2, calculated_temp_anomaly := some 0.3 }

/-- A record list with a duplicated period (two records for year 2000), used
to exhibit the overwrite behaviour of the error dict. -/
noncomputable def dupList : List Metrics :=
  [{ year := 2020, co2 := 1, temp_anomaly := some 0, temp := some 13.9 },
   { year := 2000, co2 := 1, temp_anomaly := some 0, temp := some 13.9 },
   { year := 2000, co2 := 1, temp_anomaly := some 0, temp := some 13.9 }]

/-- A single freshly-assembled record (no anomaly data yet). -/
noncomputable def loneRecord : Metrics := { year := 1959, co2 := 315.97 }

end Climate

namespace Climate

/-! ### Helper lemmas about `updateLoop` -/

/-- The loop never writes anything except the two calculated fields, and
keeps length and order. -/
theorem updateLoop_map_erase (l : List Metrics) (s pc : ℝ) (pt : Option ℝ) :
    (updateLoop s pc pt l).1.map eraseCalculated = l.map eraseCalculated := by
  induction l generalizing pc pt with
  | nil => rfl
  | cons e rest ih =>
    cases pt with
    | none => rfl
    | some pt0 =>
      simp only [updateLoop, List.map_cons, ih]
      rfl

/-- Running the loop a second time over its own output changes nothing:
the loop reads only recorded fields, which it never writes. -/
theorem updateLoop_idem (l : List Metrics) (s pc : ℝ) (pt : Option ℝ) :
    updateLoop s pc pt (updateLoop s pc pt l).1 = updateLoop s pc pt l := by
  induction l generalizing pc pt with
  | nil => rfl
  | cons e rest ih =>
    cases pt with
    | none => rfl
    | some pt0 =>
      simp only [updateLoop]
      have htemp : ({ e with
          calculated_temp := some (calculate_temperature pt0 s e.co2 pc).1,
          calculated_temp_anomaly :=
            some (calculate_temperature pt0 s e.co2 pc).2 } : Metrics).temp = e.temp := rfl
      rw [htemp, ih e.co2 e.temp]

/-- First element of the loop's output, when the prior temperature is set. -/
theorem updateLoop_get_zero (l : List Metrics) (s pc pt : ℝ) (cur : Metrics)
    (h : l.get? 0 = some cur) :
    (updateLoop s pc (some pt) l).1.get? 0 = some
      { cur with
        calculated_temp := some (calculate_temperature pt s cur.co2 pc).1,
        calculated_temp_anomaly := some (calculate_temperature pt s cur.co2 pc).2 } := by
  cases l with
  | nil => simp at h
  | cons e rest =>
    simp only [List.get?] at h
    cases h
    rfl

/-- Later elements of the loop's output: provided every record carries a
recorded temperature, the record after position `i` is updated using record
`i`'s recorded temperature and concentration as the prior state. -/
theorem updateLoop_get_succ (l : List Metrics) (s pc pt0 : ℝ)
    (hrec : ∀ r ∈ l, r.temp.isSome = true) (i : Nat) (prev cur : Metrics) (pt : ℝ)
    (hprev : l.get? i = some prev) (hcur : l.get? (i + 1) = some cur)
    (hpt : prev.temp = some pt) :
    (updateLoop s pc (some pt0) l).1.get? (i + 1) = some
      { cur with
        calculated_temp := some (calculate_temperature pt s cur.co2 prev.co2).1,
        calculated_temp_anomaly := some (calculate_temperature pt s cur.co2 prev.co2).2 } := by
  induction i generalizing l pc pt0 with
  | zero =>
    cases l with
    | nil => simp at hprev
    | cons e rest =>
      simp only [List.get?] at hprev hcur
      cases hprev
      simp only [updateLoop]
      have : (updateLoop s prev.co2 prev.temp rest).1.get? 0 = some
          { cur with
            calculated_temp := some (calculate_temperature pt s cur.co2 prev.co2).1,
            calculated_temp_anomaly :=
              some (calculate_temperature pt s cur.co2 prev.co2).2 } := by
        rw [hpt]
        exact updateLoop_get_zero rest s prev.co2 pt cur hcur
      simpa using this
  | succ k ih =>
    cases l with
    | nil => simp at hprev
    | cons e rest =>
      have he : e.temp.isSome = true := hrec e (List.mem_cons_self e rest)
      obtain ⟨et, het⟩ := Option.isSome_iff_exists.mp he
      have hrec' : ∀ r ∈ rest, r.temp.isSome = true := fun r hr =>
        hrec r (List.mem_cons_of_mem e hr)
      simp only [List.get?] at hprev hcur
      simp only [updateLoop]
      have : (updateLoop s e.co2 e.temp rest).1.get? (k + 1) = some
          { cur with
            calculated_temp := some (calculate_temperature pt s cur.co2 prev.co2).1,
            calculated_temp_anomaly :=
              some (calculate_temperature pt s cur.co2 prev.co2).2 } := by
        rw [het]
        exact ih rest e.co2 et hrec' hprev hcur
      simpa using this

/-! ### Helper lemmas about `extrapolateLoop` -/

/-- The extrapolation loop emits one record per remaining step. -/
theorem extrapolateLoop_length (s e : ℝ) (k : Nat) :
    ∀ (pc pt : ℝ) (y : Int), (extrapolateLoop s e pc pt y k).length = k := by
  induction k with
  | zero => intro pc pt y; rfl
  | succ n ih =>
    intro pc pt y
    simp only [extrapolateLoop, List.length_cons, ih]

/-- The record at position `i` of the extrapolation loop carries year `y + i`. -/
theorem extrapolateLoop_year (s e : ℝ) (k : Nat) :
    ∀ (pc pt : ℝ) (y : Int) (i : Nat) (r : Metrics),
      (extrapolateLoop s e pc pt y k).get? i = some r → r.year = y + (i : Int) := by
  induction k with
  | zero => intro pc pt y i r h; simp [extrapolateLoop] at h
  | succ n ih =>
    intro pc pt y i r h
    simp only [extrapolateLoop] at h
    cases i with
    | zero =>
      simp only [List.get?, Option.some.injEq] at h
      subst h
      simp
    | succ j =>
      simp only [List.get?] at h
      have := ih _ _ (y + 1) j r h
      rw [this]
      push_cast
      ring

/-- Every record the extrapolation loop emits has its `temp` and
`temp_anomaly` attributes populated and its calculated fields unset. -/
theorem extrapolateLoop_fields (s e : ℝ) (k : Nat) :
    ∀ (pc pt : ℝ) (y : Int), ∀ r ∈ extrapolateLoop s e pc pt y k,
      (r.temp.isSome = true ∧ r.temp_anomaly.isSome = true) ∧
      r.calculated_temp = none ∧ r.calculated_temp_anomaly = none := by
  induction k with
  | zero => intro pc pt y r hr; simp [extrapolateLoop] at hr
  | succ n ih =>
    intro pc pt y r hr
    simp only [extrapolateLoop, List.mem_cons] at hr
    rcases hr with h | h
    · subst h; exact ⟨⟨rfl, rfl⟩, rfl, rfl⟩
    · exact ih _ _ _ r h

/-- With non-negative emissions, every concentration the loop emits is at
least the incoming prior concentration. -/
theorem extrapolateLoop_co2_lb (s e : ℝ) (he : 0 ≤ e) (k : Nat) :
    ∀ (pc pt : ℝ) (y : Int), ∀ r ∈ extrapolateLoop s e pc pt y k, pc ≤ r.co2 := by
  induction k with
  | zero => intro pc pt y r hr; simp [extrapolateLoop] at hr
  | succ n ih =>
    intro pc pt y r hr
    have hstep : pc ≤ calculate_concentration pc e := by
      have hpos : 0 ≤ (e * 0.45) / 2.3 := by positivity
      simpa [calculate_concentration] using hpos
    simp only [extrapolateLoop, List.mem_cons] at hr
    rcases hr with h | h
    · subst h; exact hstep
    · exact le_trans hstep (ih _ _ _ r h)

/-- With non-negative emissions, the concentrations emitted by the loop are
non-decreasing. -/
theorem extrapolateLoop_chain (s e : ℝ) (he : 0 ≤ e) (k : Nat) :
    ∀ (pc pt : ℝ) (y : Int),
      List.Chain' (fun a b => a.co2 ≤ b.co2) (extrapolateLoop s e pc pt y k) := by
  induction k with
  | zero => intro pc pt y; exact List.chain'_nil
  | succ n ih =>
    intro pc pt y
    simp only [extrapolateLoop]
    refine List.chain'_cons'.mpr ⟨?_, ih _ _ _⟩
    intro b hb
    exact extrapolateLoop_co2_lb s e he n _ _ _ b (List.mem_of_mem_head? hb)

/-- Claim C6: for all `p ≥ 0`, `e ≥ 0`, `calculate_concentration p e` equals
`p + (e * 0.45) / 2.3`, is at least `p`, and equals `p` exactly when `e = 0`. -/
theorem calculate_concentration_spec (p e : ℝ) (hp : 0 ≤ p) (he : 0 ≤ e) :
    calculate_concentration p e = p + (e * 0.45) / 2.3 ∧
    p ≤ calculate_concentration p e ∧
    calculate_concentration p 0 = p := by
  refine ⟨rfl, ?_, ?_⟩
  · have hinc : 0 ≤ (e * 0.45) / 2.3 := by positivity
    simpa [calculate_concentration] using hinc
  · simp [calculate_concentration]

/-- Witness for C6 at `p = 1`, `e = 2`. -/
theorem calculate_concentration_spec_w :
    (0 : ℝ) ≤ 1 ∧ (0 : ℝ) ≤ 2 ∧
    (calculate_concentration 1 2 = 1 + ((2 : ℝ) * 0.45) / 2.3 ∧
      (1 : ℝ) ≤ calculate_concentration 1 2 ∧
      calculate_concentration 1 0 = 1) :=
  ⟨by norm_num, by norm_num,
    calculate_concentration_spec 1 2 (by norm_num) (by norm_num)⟩

/-- Claim C7: for sensitivity in `[2, 5]` and positive concentrations, the
anomaly returned by `calculate_temperature` is exactly the returned temperature
minus 13.9, and the returned temperature equals the prior temperature whenever
the two concentrations coincide. -/
theorem calculate_temperature_spec (T S C C0 : ℝ) (hS1 : 2 ≤ S) (hS2 : S ≤ 5)
    (hC : 0 < C) (hC0 : 0 < C0) :
    (calculate_temperature T S C C0).2 = (calculate_temperature T S C C0).1 - 13.9 ∧
    (C = C0 → (calculate_temperature T S C C0).1 = T) := by
  constructor
  · rfl
  · intro hCC
    have hC0' : C0 ≠ 0 := ne_of_gt hC0
    simp [calculate_temperature, hCC, div_self hC0']

/-- Witness for C7 at `T = 1`, `S = 3`, `C = C0 = 2`. -/
theorem calculate_temperature_spec_w :
    (2 : ℝ) ≤ 3 ∧ (3 : ℝ) ≤ 5 ∧ (0 : ℝ) < 2 ∧
    ((calculate_temperature 1 3 2 2).2 = (calculate_temperature 1 3 2 2).1 - 13.9 ∧
      ((2 : ℝ) = 2 → (calculate_temperature 1 3 2 2).1 = 1)) :=
  ⟨by norm_num, by norm_num, by norm_num,
    calculate_temperature_spec 1 3 2 2 (by norm_num) (by norm_num)
      (by norm_num) (by norm_num)⟩

/-- Claim C4: on a record list of length at least one whose records carry
recorded temperatures, with sensitivity in `[2, 5]`, `update_data` leaves the
first record untouched and, for each later record, writes into its calculated
fields the temperature step computed from the *previous* record's recorded
temperature and recorded concentration (never the previously modeled state)
and the current record's recorded concentration. -/
theorem update_data_uses_recorded_prior (metrics : List Metrics) (s : ℝ)
    (hlen : 1 ≤ metrics.length) (hs1 : 2 ≤ s) (hs2 : s ≤ 5)
    (hrec : ∀ r ∈ metrics, r.temp.isSome = true) :
    (update_data metrics s).1.get? 0 = metrics.get? 0 ∧
    ∀ (i : Nat) (prev cur : Metrics) (pt : ℝ),
      metrics.get? i = some prev → metrics.get? (i + 1) = some cur →
      prev.temp = some pt →
      (update_data metrics s).1.get? (i + 1) = some
        { cur with
          calculated_temp := some (calculate_temperature pt s cur.co2 prev.co2).1,
          calculated_temp_anomaly :=
            some (calculate_temperature pt s cur.co2 prev.co2).2 } := by
  cases metrics with
  | nil => simp at hlen
  | cons first rest =>
    constructor
    · rfl
    · intro i prev cur pt hprev hcur hpt
      obtain ⟨ft, hft⟩ :=
        Option.isSome_iff_exists.mp (hrec first (List.mem_cons_self first rest))
      have hrest : ∀ r ∈ rest, r.temp.isSome = true := fun r hr =>
        hrec r (List.mem_cons_of_mem first hr)
      cases i with
      | zero =>
        have hfp : first = prev := by simpa using hprev
        subst hfp
        simp only [List.get?] at hcur
        show (first :: (updateLoop s first.co2 first.temp rest).1).get? 1 = _
        simp only [List.get?]
        rw [hpt]
        exact updateLoop_get_zero rest s first.co2 pt cur hcur
      | succ k =>
        simp only [List.get?] at hprev hcur
        show (first :: (updateLoop s first.co2 first.temp rest).1).get? (k + 1 + 1) = _
        simp only [List.get?]
        rw [hft]
        exact updateLoop_get_succ rest s first.co2 ft hrest k prev cur pt hprev hcur hpt

/-- Witness for C4 on the two-record list `[sampleA, sampleB]` with
sensitivity 3. -/
theorem update_data_uses_recorded_prior_w :
    1 ≤ [sampleA, sampleB].length ∧ (2 : ℝ) ≤ 3 ∧ (3 : ℝ) ≤ 5 ∧
    (update_data [sampleA, sampleB] 3).1.get? 1 = some
      { sampleB with
        calculated_temp := some (calculate_temperature 13.9 3 sampleB.co2 sampleA.co2).1,
        calculated_temp_anomaly :=
          some (calculate_temperature 13.9 3 sampleB.co2 sampleA.co2).2 } :=
  ⟨by simp, by norm_num, by norm_num,
    (update_data_uses_recorded_prior [sampleA, sampleB] 3 (by simp) (by norm_num) (by norm_num)
        (by
          intro r hr
          simp only [List.mem_cons, List.not_mem_nil, or_false] at hr
          rcases hr with h | h <;> subst h <;> rfl)).2
      0 sampleA sampleB 13.9 rfl rfl rfl⟩

/-- Claim C8: `update_data` is idempotent — running it a second time on its
own output, with the same sensitivity, reproduces exactly the same list and
the same error outcome. -/
theorem update_data_idempotent (metrics : List Metrics) (s : ℝ) :
    update_data (update_data metrics s).1 s = update_data metrics s := by
  cases metrics with
  | nil => rfl
  | cons first rest =>
    show (first :: (updateLoop s first.co2 first.temp
            ((updateLoop s first.co2 first.temp rest).1)).1,
          (updateLoop s first.co2 first.temp
            ((updateLoop s first.co2 first.temp rest).1)).2)
        = (first :: (updateLoop s first.co2 first.temp rest).1,
          (updateLoop s first.co2 first.temp rest).2)
    rw [updateLoop_idem]

/-- Claim C9: `update_data` preserves the list's length and order, never
changes `year`, `month`, `co2`, `temp_anomaly` or `temp` of any record, writes
only the calculated fields of records after the first, and leaves the first
record entirely unchanged (so its modeled fields stay as they were —
in particular unset when they start unset). -/
theorem update_data_frame (metrics : List Metrics) (s : ℝ) :
    (update_data metrics s).1.map eraseCalculated = metrics.map eraseCalculated ∧
    (update_data metrics s).1.head? = metrics.head? ∧
    (update_data metrics s).1.length = metrics.length := by
  cases metrics with
  | nil => exact ⟨rfl, rfl, rfl⟩
  | cons first rest =>
    refine ⟨?_, rfl, ?_⟩
    · show (first :: (updateLoop s first.co2 first.temp rest).1).map eraseCalculated = _
      simp only [List.map_cons, updateLoop_map_erase]
    · have h := congrArg List.length (updateLoop_map_erase rest s first.co2 first.temp)
      simp only [List.length_map] at h
      show (first :: (updateLoop s first.co2 first.temp rest).1).length = _
      simp [h]

/-- Claim C1 counterexample: `extrapolate_data 1 3 10` returns a record whose
`calculated_temp` is unset and whose `temp` is set — the code stores the
modeled values in the recorded attributes `temp` / `temp_anomaly`, the
opposite of the claim's field assignment. -/
theorem extrapolate_data_fields_cex :
    ((extrapolate_data 1 3 10).map fun r => (r.calculated_temp, r.temp.isSome))
      = [(none, true)] := rfl

/-- Claim C1 as amended: for `N > 0`, sensitivity in `[2, 5]` and emissions
`≥ 0`, `extrapolate_data` returns exactly `N` records with strictly
increasing years `2021, 2022, ...`, every record carrying its modeled values
in the `temp` / `temp_anomaly` attributes (both set), with the
`calculated_temp` / `calculated_temp_anomaly` attributes left unset. -/
theorem extrapolate_data_shape (N : Nat) (s e : ℝ) (hN : 0 < N)
    (hs1 : 2 ≤ s) (hs2 : s ≤ 5) (he : 0 ≤ e) :
    (extrapolate_data N s e).length = N ∧
    (∀ (i : Nat) (r : Metrics),
      (extrapolate_data N s e).get? i = some r → r.year = 2021 + (i : Int)) ∧
    ∀ r ∈ extrapolate_data N s e,
      (r.temp.isSome = true ∧ r.temp_anomaly.isSome = true) ∧
      r.calculated_temp = none ∧ r.calculated_temp_anomaly = none :=
  ⟨extrapolateLoop_length s e N INITIAL_CO2 INITIAL_TEMP 2021,
   fun i r h => extrapolateLoop_year s e N INITIAL_CO2 INITIAL_TEMP 2021 i r h,
   fun r hr => extrapolateLoop_fields s e N INITIAL_CO2 INITIAL_TEMP 2021 r hr⟩

/-- Witness for the amended C1 at `N = 1`, `s = 3`, `e = 0`. -/
theorem extrapolate_data_shape_w :
    0 < 1 ∧ (2 : ℝ) ≤ 3 ∧ (3 : ℝ) ≤ 5 ∧ (0 : ℝ) ≤ 0 ∧
    (extrapolate_data 1 3 0).length = 1 :=
  ⟨by decide, by norm_num, by norm_num, by norm_num,
    (extrapolate_data_shape 1 3 0 (by decide) (by norm_num) (by norm_num) (by norm_num)).1⟩

/-- Claim C10: for `N > 0`, sensitivity in `[2, 5]` and emissions `≥ 0`, the
`co2` values produced by `extrapolate_data` are non-decreasing and every one
of them is at least the baseline `INITIAL_CO2`. -/
theorem extrapolate_data_co2_monotone (N : Nat) (s e : ℝ) (hN : 0 < N)
    (hs1 : 2 ≤ s) (hs2 : s ≤ 5) (he : 0 ≤ e) :
    List.Chain' (fun a b => a.co2 ≤ b.co2) (extrapolate_data N s e) ∧
    ∀ r ∈ extrapolate_data N s e, INITIAL_CO2 ≤ r.co2 :=
  ⟨extrapolateLoop_chain s e he N INITIAL_CO2 INITIAL_TEMP 2021,
   fun r hr => extrapolateLoop_co2_lb s e he N INITIAL_CO2 INITIAL_TEMP 2021 r hr⟩

/-- Witness for C10 at `N = 1`, `s = 3`, `e = 0`. -/
theorem extrapolate_data_co2_monotone_w :
    0 < 1 ∧ (2 : ℝ) ≤ 3 ∧ (3 : ℝ) ≤ 5 ∧ (0 : ℝ) ≤ 0 ∧
    List.Chain' (fun a b => a.co2 ≤ b.co2) (extrapolate_data 1 3 0) :=
  ⟨by decide, by norm_num, by norm_num, by norm_num,
    (extrapolate_data_co2_monotone 1 3 0 (by decide) (by norm_num) (by norm_num)
      (by norm_num)).1⟩

/-! ### Helper lemmas about the error dict -/

/-- Inserting under a key absent from the dict appends at the end. -/
theorem dictInsert_of_fresh (d : List (String × ℝ)) (k : String) (v : ℝ)
    (h : ∀ p ∈ d, p.1 ≠ k) :
    dictInsert d k v = d ++ [(k, v)] := by
  have hc : (d.any fun p => p.1 == k) = false := by
    rw [List.any_eq_false]
    intro p hp
    simpa using h p hp
  simp [dictInsert, hc]

/-- When every record carries both anomaly fields, and the period labels are
pairwise distinct and fresh for the accumulator, the error loop succeeds and
appends one entry per record, in input order. -/
theorem errorLoop_ok (l : List Metrics) :
    ∀ acc : List (String × ℝ),
      (∀ e ∈ l, e.calculated_temp_anomaly.isSome = true ∧ e.temp_anomaly.isSome = true) →
      (l.map periodLabel).Nodup →
      (∀ e ∈ l, ∀ p ∈ acc, p.1 ≠ periodLabel e) →
      errorLoop l acc = Except.ok (acc ++ l.map fun e =>
        (periodLabel e,
          |Real.log (Real.exp
            (e.calculated_temp_anomaly.getD 0 - e.temp_anomaly.getD 0))| * 100)) := by
  induction l with
  | nil => intro acc _ _ _; simp [errorLoop]
  | cons e rest ih =>
    intro acc hfields hnodup hdisj
    obtain ⟨hcs, hks⟩ := hfields e (List.mem_cons_self e rest)
    obtain ⟨c, hc⟩ := Option.isSome_iff_exists.mp hcs
    obtain ⟨k, hk⟩ := Option.isSome_iff_exists.mp hks
    have hhead : periodLabel e ∉ rest.map periodLabel := by
      simp only [List.map_cons, List.nodup_cons] at hnodup
      exact hnodup.1
    have hnodup' : (rest.map periodLabel).Nodup := by
      simp only [List.map_cons, List.nodup_cons] at hnodup
      exact hnodup.2
    have hfields' : ∀ x ∈ rest,
        x.calculated_temp_anomaly.isSome = true ∧ x.temp_anomaly.isSome = true :=
      fun x hx => hfields x (List.mem_cons_of_mem e hx)
    have hdisj' : ∀ x ∈ rest,
        ∀ p ∈ acc ++ [(periodLabel e, |Real.log (Real.exp (c - k))| * 100)],
          p.1 ≠ periodLabel x := by
      intro x hx p hp
      rcases List.mem_append.mp hp with hpa | hpb
      · exact hdisj x (List.mem_cons_of_mem e hx) p hpa
      · have hpe : p = (periodLabel e, |Real.log (Real.exp (c - k))| * 100) := by
          simpa using hpb
        subst hpe
        intro hcontra
        apply hhead
        rw [show periodLabel e = periodLabel x from hcontra]
        exact List.mem_map_of_mem periodLabel hx
    have hfresh : ∀ p ∈ acc, p.1 ≠ periodLabel e := hdisj e (List.mem_cons_self e rest)
    simp only [errorLoop, hc, hk]
    rw [dictInsert_of_fresh _ _ _ hfresh, ih _ hfields' hnodup' hdisj']
    simp [hc, hk, List.append_assoc]

/-- Claim C5 counterexample: a three-record list with a duplicated year
label, successfully replayed by `update_data`, yields an error dict with a
single entry although two records follow the first — the later entry
overwrote the earlier one with the same key. -/
theorem calculate_error_duplicate_label_cex :
    Except.map List.length (calculate_error (update_data dupList 3).1) = Except.ok 1 ∧
    (update_data dupList 3).1.tail.length = 2 :=
  ⟨rfl, rfl⟩

/-- Claim C5 as amended: on a record list whose records after the first all
carry both anomaly fields and pairwise distinct period labels (as any
replayed assembled series does), `calculate_error` skips the first record and
returns exactly one entry per remaining record, keyed by its period label in
input order, with value `|modeledAnomaly - recordedAnomaly| * 100 ≥ 0`; with
duplicated labels a later record overwrites the earlier entry instead. -/
theorem calculate_error_entries (metrics : List Metrics)
    (hfields : ∀ e ∈ metrics.tail,
      e.calculated_temp_anomaly.isSome = true ∧ e.temp_anomaly.isSome = true)
    (hlabels : (metrics.tail.map periodLabel).Nodup) :
    calculate_error metrics = Except.ok (metrics.tail.map fun e =>
      (periodLabel e,
        |e.calculated_temp_anomaly.getD 0 - e.temp_anomaly.getD 0| * 100)) ∧
    ∀ e ∈ metrics.tail,
      0 ≤ |e.calculated_temp_anomaly.getD 0 - e.temp_anomaly.getD 0| * 100 := by
  constructor
  · have h := errorLoop_ok metrics.tail [] hfields hlabels
      (by intro x hx p hp; simp at hp)
    rw [show calculate_error metrics = errorLoop metrics.tail [] from rfl, h]
    simp [Real.log_exp]
  · intro x hx
    positivity

/-- Witness for the amended C5 on the list `[sampleA, sampleC]`. -/
theorem calculate_error_entries_w :
    ([sampleA, sampleC].tail.map periodLabel).Nodup ∧
    calculate_error [sampleA, sampleC] = Except.ok ([sampleA, sampleC].tail.map fun e =>
      (periodLabel e,
        |e.calculated_temp_anomaly.getD 0 - e.temp_anomaly.getD 0| * 100)) :=
  ⟨by simp,
    (calculate_error_entries [sampleA, sampleC]
      (by
        intro x hx
        have hx' : x = sampleC := by simpa using hx
        subst hx'
        exact ⟨rfl, rfl⟩)
      (by simp)).1⟩

/-- Claim C3 counterexample: on a list with no comparable periods the
aggregate-error function raises `ZeroDivisionError` — it does not report a
distinct "no data" condition. -/
theorem avg_error_zero_division_cex :
    calculate_average_percent_error [loneRecord] = Except.error PyErr.zeroDivisionError :=
  rfl

/-- Claim C3 as amended: when the per-period error map is empty,
`calculate_average_percent_error` fails with the `ZeroDivisionError` of
`sum([]) / len([])`; in particular it never returns a silent zero. -/
theorem avg_error_no_data (metrics : List Metrics)
    (h : calculate_error metrics = Except.ok []) :
    calculate_average_percent_error metrics = Except.error PyErr.zeroDivisionError := by
  unfold calculate_average_percent_error
  rw [h]
  rfl

/-- Witness for the amended C3 on a one-record list. -/
theorem avg_error_no_data_w :
    calculate_error [sampleA] = Except.ok [] ∧
    calculate_average_percent_error [sampleA] = Except.error PyErr.zeroDivisionError :=
  ⟨rfl, avg_error_no_data [sampleA] rfl⟩

/-! ### Helper lemmas about the positional merge of load_data -/

/-- Phase 1 produces one record per accepted source-A row. -/
theorem buildYearly_length (rows1 : List (Int × ℝ)) :
    (buildYearly rows1).length = acceptedCountY rows1 := by
  induction rows1 with
  | nil => rfl
  | cons row rest ih =>
    simp only [buildYearly, acceptedCountY, List.filterMap_cons, List.filter_cons] at ih ⊢
    cases hacc : yearAccepted row.1 <;> simp [hacc, ih]

/-- Phase 1 leaves the recorded anomaly fields unset. -/
theorem buildYearly_unfilled (rows1 : List (Int × ℝ)) :
    ∀ r ∈ buildYearly rows1, r.temp_anomaly = none ∧ r.temp = none := by
  intro r hr
  rw [buildYearly, List.mem_filterMap] at hr
  obtain ⟨a, _, hfa⟩ := hr
  by_cases hacc : yearAccepted a.1 = true
  · rw [if_pos hacc] at hfa
    cases hfa
    exact ⟨rfl, rfl⟩
  · rw [if_neg hacc] at hfa
    cases hfa

/-- When source B holds more accepted rows than there are records left, the
fill loop runs off the end of the list and raises `IndexError`. -/
theorem fillYearly_err (rows : List (Int × ℝ)) :
    ∀ (recs : List Metrics) (idx : Nat), idx ≤ recs.length →
      recs.length < idx + acceptedCountY rows →
      fillYearly recs idx rows = Except.error PyErr.indexError := by
  induction rows with
  | nil =>
    intro recs idx hle hlt
    simp [acceptedCountY] at hlt
    omega
  | cons row rest ih =>
    intro recs idx hle hlt
    by_cases hacc : yearAccepted row.1 = true
    · have hcnt : acceptedCountY (row :: rest) = acceptedCountY rest + 1 := by
        simp [acceptedCountY, List.filter_cons, hacc]
      rw [hcnt] at hlt
      rcases Nat.lt_or_ge idx recs.length with hidx | hidx
      · have hsome : recs.get? idx = some (recs.get ⟨idx, hidx⟩) := List.get?_eq_get hidx
        simp only [fillYearly, hacc, if_true, hsome]
        exact ih _ (idx + 1) (by rw [List.length_set]; omega) (by rw [List.length_set]; omega)
      · have hnone : recs.get? idx = none := List.get?_eq_none.mpr hidx
        simp only [fillYearly, hacc, if_true, hnone]
    · have hacc' : yearAccepted row.1 = false := by
        revert hacc; cases yearAccepted row.1 <;> simp
      have hcnt : acceptedCountY (row :: rest) = acceptedCountY rest := by
        simp [acceptedCountY, List.filter_cons, hacc']
      rw [hcnt] at hlt
      simp only [fillYearly, hacc']
      simpa using ih recs idx hle hlt

/-- When the records can absorb all accepted source-B rows, the fill loop
succeeds, keeps the length, and leaves positions past the filled range
untouched. -/
theorem fillYearly_ok (rows : List (Int × ℝ)) :
    ∀ (recs : List Metrics) (idx : Nat), idx + acceptedCountY rows ≤ recs.length →
      ∃ l, fillYearly recs idx rows = Except.ok l ∧ l.length = recs.length ∧
        ∀ j, idx + acceptedCountY rows ≤ j → l.get? j = recs.get? j := by
  induction rows with
  | nil =>
    intro recs idx _
    exact ⟨recs, rfl, rfl, fun j _ => rfl⟩
  | cons row rest ih =>
    intro recs idx hle
    by_cases hacc : yearAccepted row.1 = true
    · have hcnt : acceptedCountY (row :: rest) = acceptedCountY rest + 1 := by
        simp [acceptedCountY, List.filter_cons, hacc]
      rw [hcnt] at hle
      have hidx : idx < recs.length := by omega
      have hsome : recs.get? idx = some (recs.get ⟨idx, hidx⟩) := List.get?_eq_get hidx
      obtain ⟨l, hok, hlen, huntouched⟩ := ih
        (recs.set idx
          { recs.get ⟨idx, hidx⟩ with
            temp_anomaly := some row.2,
            temp := some (round2 (13.9 + row.2)) })
        (idx + 1) (by rw [List.length_set]; omega)
      refine ⟨l, ?_, by rw [hlen, List.length_set], ?_⟩
      · simp only [fillYearly, hacc, if_true, hsome]
        exact hok
      · intro j hj
        rw [huntouched j (by omega)]
        exact List.get?_set_ne _ _ (by omega)
    · have hacc' : yearAccepted row.1 = false := by
        revert hacc; cases yearAccepted row.1 <;> simp
      have hcnt : acceptedCountY (row :: rest) = acceptedCountY rest := by
        simp [acceptedCountY, List.filter_cons, hacc']
      rw [hcnt] at hle
      obtain ⟨l, hok, hlen, huntouched⟩ := ih recs idx hle
      refine ⟨l, ?_, hlen, fun j hj => huntouched j (by omega)⟩
      simp only [fillYearly, hacc']
      simpa using hok

/-- Monthly analogue of `buildYearly_length`. -/
theorem buildMonthly_length (rows1 : List (Int × Int × ℝ)) :
    (buildMonthly rows1).length = acceptedCountM rows1 := by
  induction rows1 with
  | nil => rfl
  | cons row rest ih =>
    simp only [buildMonthly, acceptedCountM, List.filterMap_cons, List.filter_cons] at ih ⊢
    cases hacc : yearAccepted row.1 <;> simp [hacc, ih]

/-- Monthly analogue of `buildYearly_unfilled`. -/
theorem buildMonthly_unfilled (rows1 : List (Int × Int × ℝ)) :
    ∀ r ∈ buildMonthly rows1, r.temp_anomaly = none ∧ r.temp = none := by
  intro r hr
  rw [buildMonthly, List.mem_filterMap] at hr
  obtain ⟨a, _, hfa⟩ := hr
  by_cases hacc : yearAccepted a.1 = true
  · rw [if_pos hacc] at hfa
    cases hfa
    exact ⟨rfl, rfl⟩
  · rw [if_neg hacc] at hfa
    cases hfa

/-- Monthly analogue of `fillYearly_err`. -/
theorem fillMonthly_err (rows : List (Int × Int × ℝ)) :
    ∀ (recs : List Metrics) (idx : Nat), idx ≤ recs.length →
      recs.length < idx + acceptedCountM rows →
      fillMonthly recs idx rows = Except.error PyErr.indexError := by
  induction rows with
  | nil =>
    intro recs idx hle hlt
    simp [acceptedCountM] at hlt
    omega
  | cons row rest ih =>
    intro recs idx hle hlt
    by_cases hacc : yearAccepted row.1 = true
    · have hcnt : acceptedCountM (row :: rest) = acceptedCountM rest + 1 := by
        simp [acceptedCountM, List.filter_cons, hacc]
      rw [hcnt] at hlt
      rcases Nat.lt_or_ge idx recs.length with hidx | hidx
      · have hsome : recs.get? idx = some (recs.get ⟨idx, hidx⟩) := List.get?_eq_get hidx
        simp only [fillMonthly, hacc, if_true, hsome]
        exact ih _ (idx + 1) (by rw [List.length_set]; omega) (by rw [List.length_set]; omega)
      · have hnone : recs.get? idx = none := List.get?_eq_none.mpr hidx
        simp only [fillMonthly, hacc, if_true, hnone]
    · have hacc' : yearAccepted row.1 = false := by
        revert hacc; cases yearAccepted row.1 <;> simp
      have hcnt : acceptedCountM (row :: rest) = acceptedCountM rest := by
        simp [acceptedCountM, List.filter_cons, hacc']
      rw [hcnt] at hlt
      simp only [fillMonthly, hacc']
      simpa using ih recs idx hle hlt

/-- Monthly analogue of `fillYearly_ok`. -/
theorem fillMonthly_ok (rows : List (Int × Int × ℝ)) :
    ∀ (recs : List Metrics) (idx : Nat), idx + acceptedCountM rows ≤ recs.length →
      ∃ l, fillMonthly recs idx rows = Except.ok l ∧ l.length = recs.length ∧
        ∀ j, idx + acceptedCountM rows ≤ j → l.get? j = recs.get? j := by
  induction rows with
  | nil =>
    intro recs idx _
    exact ⟨recs, rfl, rfl, fun j _ => rfl⟩
  | cons row rest ih =>
    intro recs idx hle
    by_cases hacc : yearAccepted row.1 = true
    · have hcnt : acceptedCountM (row :: rest) = acceptedCountM rest + 1 := by
        simp [acceptedCountM, List.filter_cons, hacc]
      rw [hcnt] at hle
      have hidx : idx < recs.length := by omega
      have hsome : recs.get? idx = some (recs.get ⟨idx, hidx⟩) := List.get?_eq_get hidx
      obtain ⟨l, hok, hlen, huntouched⟩ := ih
        (recs.set idx
          { recs.get ⟨idx, hidx⟩ with
            month := some row.2.1,
            temp_anomaly := some row.2.2,
            temp := some (round2 (13.9 + row.2.2)) })
        (idx + 1) (by rw [List.length_set]; omega)
      refine ⟨l, ?_, by rw [hlen, List.length_set], ?_⟩
      · simp only [fillMonthly, hacc, if_true, hsome]
        exact hok
      · intro j hj
        rw [huntouched j (by omega)]
        exact List.get?_set_ne _ _ (by omega)
    · have hacc' : yearAccepted row.1 = false := by
        revert hacc; cases yearAccepted row.1 <;> simp
      have hcnt : acceptedCountM (row :: rest) = acceptedCountM rest := by
        simp [acceptedCountM, List.filter_cons, hacc']
      rw [hcnt] at hle
      obtain ⟨l, hok, hlen, huntouched⟩ := ih recs idx hle
      refine ⟨l, ?_, hlen, fun j hj => huntouched j (by omega)⟩
      simp only [fillMonthly, hacc']
      simpa using hok

/-- Claim C2 counterexample: with two accepted source-A rows but only one
accepted source-B row, `load_yearly_data` raises nothing and returns a list
whose trailing record has its concentration set but `temp_anomaly` and `temp`
unset — the silent truncation the claim says never happens. -/
theorem load_yearly_truncation_cex :
    load_yearly_data [((1960 : Int), (1 : ℝ)), ((1961 : Int), (1 : ℝ))]
        [((1960 : Int), (1 : ℝ))]
      = Except.ok
        [{ year := 1960, co2 := 1, temp_anomaly := some 1,
           temp := some (round2 (13.9 + 1)) },
         { year := 1961, co2 := 1 }] ∧
    ({ year := 1961, co2 := 1 } : Metrics).temp_anomaly = none ∧
    ({ year := 1961, co2 := 1 } : Metrics).temp = none :=
  ⟨rfl, rfl, rfl⟩

/-- Claim C2 as amended: when source B yields *more* accepted rows than
source A, both loaders surface the misalignment immediately as an
`IndexError`; when source B yields *fewer* accepted rows, they silently
return a list of one record per accepted source-A row whose trailing records
have the concentration set but `temp_anomaly` / `temp` left unset. -/
theorem load_data_misalignment :
    (∀ rows1 rows2 : List (Int × ℝ), acceptedCountY rows1 < acceptedCountY rows2 →
      load_yearly_data rows1 rows2 = Except.error PyErr.indexError) ∧
    (∀ rows1 rows2 : List (Int × ℝ), acceptedCountY rows2 < acceptedCountY rows1 →
      ∃ l, load_yearly_data rows1 rows2 = Except.ok l ∧
        l.length = acceptedCountY rows1 ∧
        ∃ r, l.get? (acceptedCountY rows1 - 1) = some r ∧
          r.temp_anomaly = none ∧ r.temp = none) ∧
    (∀ rows1 rows2 : List (Int × Int × ℝ), acceptedCountM rows1 < acceptedCountM rows2 →
      load_monthly_data rows1 rows2 = Except.error PyErr.indexError) ∧
    (∀ rows1 rows2 : List (Int × Int × ℝ), acceptedCountM rows2 < acceptedCountM rows1 →
      ∃ l, load_monthly_data rows1 rows2 = Except.ok l ∧
        l.length = acceptedCountM rows1 ∧
        ∃ r, l.get? (acceptedCountM rows1 - 1) = some r ∧
          r.temp_anomaly = none ∧ r.temp = none) := by
  refine ⟨?_, ?_, ?_, ?_⟩
  · intro rows1 rows2 h
    exact fillYearly_err rows2 (buildYearly rows1) 0 (Nat.zero_le _)
      (by rw [buildYearly_length]; omega)
  · intro rows1 rows2 h
    obtain ⟨l, hok, hlen, huntouched⟩ := fillYearly_ok rows2 (buildYearly rows1) 0
      (by rw [buildYearly_length]; omega)
    refine ⟨l, hok, by rw [hlen, buildYearly_length], ?_⟩
    have hidx : acceptedCountY rows1 - 1 < (buildYearly rows1).length := by
      rw [buildYearly_length]; omega
    have hsome := List.get?_eq_get hidx
    refine ⟨(buildYearly rows1).get ⟨acceptedCountY rows1 - 1, hidx⟩, ?_, ?_⟩
    · rw [huntouched _ (by omega)]
      exact hsome
    · exact buildYearly_unfilled rows1 _ (List.get?_mem hsome)
  · intro rows1 rows2 h
    exact fillMonthly_err rows2 (buildMonthly rows1) 0 (Nat.zero_le _)
      (by rw [buildMonthly_length]; omega)
  · intro rows1 rows2 h
    obtain ⟨l, hok, hlen, huntouched⟩ := fillMonthly_ok rows2 (buildMonthly rows1) 0
      (by rw [buildMonthly_length]; omega)
    refine ⟨l, hok, by rw [hlen, buildMonthly_length], ?_⟩
    have hidx : acceptedCountM rows1 - 1 < (buildMonthly rows1).length := by
      rw [buildMonthly_length]; omega
    have hsome := List.get?_eq_get hidx
    refine ⟨(buildMonthly rows1).get ⟨acceptedCountM rows1 - 1, hidx⟩, ?_, ?_⟩
    · rw [huntouched _ (by omega)]
      exact hsome
    · exact buildMonthly_unfilled rows1 _ (List.get?_mem hsome)

/-- Witness for the amended C2: an empty source A against a one-row source B
makes both loaders raise `IndexError`. -/
theorem load_data_misalignment_w :
    acceptedCountY [] < acceptedCountY [((1960 : Int), (1 : ℝ))] ∧
    load_yearly_data [] [((1960 : Int), (1 : ℝ))] = Except.error PyErr.indexError ∧
    acceptedCountM [] < acceptedCountM [((1960 : Int), (7 : Int), (1 : ℝ))] ∧
    load_monthly_data [] [((1960 : Int), (7 : Int), (1 : ℝ))]
      = Except.error PyErr.indexError :=
  ⟨by decide, load_data_misalignment.1 [] [((1960 : Int), (1 : ℝ))] (by decide),
   by decide, load_data_misalignment.2.2.1 [] [((1960 : Int), (7 : Int), (1 : ℝ))] (by decide)⟩

end Climate
